import Mathlib

/- Batteries marks the `Rat` field operations `@[irreducible]`, which blocks
`decide` on concrete rational computations at elaboration time; restore the
default reducibility so that concrete runs of the (fully computable)
tile-coverage solver below can be settled by `decide`. -/
set_option allowUnsafeReducibility true
attribute [semireducible] Rat.add Rat.sub Rat.mul Rat.inv Rat.ofScientific

/-!
Verification of the Blitzortung Home Assistant integration's geospatial
subscription engine and strike-ingestion pipeline, shallowly embedded from
`custom_components/blitzortung/__init__.py`, `geohash_utils.py` and
`geocoding_utils.py`.  Python floats are modelled by exact real numbers
(every float value is a rational, the transcendental library functions by
their exact counterparts); Python dicts by insertion-ordered association
lists; Python sets by duplicate-free lists together with their `Finset`
of elements.
-/

namespace Blitzortung

/-! ### Rounding and polar coordinates
Embedding of `BlitzortungCoordinator.compute_polar_coords`. -/

/-- Python `round(x, 1)`: round to one decimal place.  (Mathlib's `round`
rounds half away from zero upward while Python rounds half to even; the two
agree away from exact ties, and no statement below sits on a tie.) -/
noncomputable def round1 (x : ℝ) : ℝ := ((round (10 * x) : ℤ) : ℝ) / 10

/-- Python `math.atan2 y x`: the argument of the complex number `x + y*I`,
in `(-π, π]`, with `atan2 0 0 = 0`. -/
noncomputable def atan2 (y x : ℝ) : ℝ := Complex.arg ⟨x, y⟩

/-- The north-referenced radian-scaled latitude delta `dy` of
`compute_polar_coords`. -/
noncomputable def polar_dy (olat slat : ℝ) : ℝ := (slat - olat) * Real.pi / 180

/-- The cos-scaled longitude delta `dx` of `compute_polar_coords`. -/
noncomputable def polar_dx (olat olon slon : ℝ) : ℝ :=
  (slon - olon) * Real.pi / 180 * Real.cos (olat * Real.pi / 180)

/-- The distance value attached by `compute_polar_coords`: the planar
approximation `sqrt(dx*dx + dy*dy) * 6371` rounded to one decimal place,
and then re-rounded by `float(f"...")` (a second `round1`). -/
noncomputable def lightning_distance (olat olon slat slon : ℝ) : ℝ :=
  let dy := polar_dy olat slat
  let dx := polar_dx olat olon slon
  round1 (round1 (Real.sqrt (dx * dx + dy * dy) * 6371))

/-- The azimuth value attached by `compute_polar_coords`:
`round(atan2(dx, dy) * 180 / pi) % 360`, an integer (Python `%` on a
positive modulus, i.e. `Int.emod`). -/
noncomputable def lightning_azimuth (olat olon slat slon : ℝ) : ℤ :=
  let dy := polar_dy olat slat
  let dx := polar_dx olat olon slon
  round (atan2 dx dy * 180 / Real.pi) % 360

/-- Modelled from the spec: the haversine great-circle distance with Earth
radius 6371 km, rounded to one decimal place — the formula the spec mandates
for `BearingDistanceCalculator` (section 4.3); it is absent from the code,
which uses the planar approximation. -/
noncomputable def haversine_distance (olat olon slat slon : ℝ) : ℝ :=
  let phi1 := olat * Real.pi / 180
  let phi2 := slat * Real.pi / 180
  let dphi := (slat - olat) * Real.pi / 180
  let dlam := (slon - olon) * Real.pi / 180
  let a := Real.sin (dphi / 2) ^ 2 +
    Real.cos phi1 * Real.cos phi2 * Real.sin (dlam / 2) ^ 2
  round1 (6371 * (2 * Real.arcsin (Real.sqrt a)))

/-! ### JSON values and Python dicts -/

/-- A JSON value as decoded by `json_loads_object` (numbers modelled
exactly). -/
inductive JVal where
  | num : ℝ → JVal
  | str : String → JVal
  | bool : Bool → JVal
  | null : JVal

/-- A decoded JSON object: an insertion-ordered association list, as a
Python dict. -/
abbrev Dict := List (String × JVal)

/-- Python `d[k]` as an option. -/
def dictGet (d : Dict) (k : String) : Option JVal :=
  match d with
  | [] => none
  | (k', v) :: rest => if k' = k then some v else dictGet rest k

/-- Python `d[k] = v`: replace in place if the key exists (keeping its
position), else append. -/
def dictSet (d : Dict) (k : String) (v : JVal) : Dict :=
  match d with
  | [] => [(k, v)]
  | (k', v') :: rest => if k' = k then (k, v) :: rest else (k', v') :: dictSet rest k v

/-- Python exceptions raised on the strike-decoding path. -/
inductive PyErr where
  | keyError : String → PyErr
  | typeError : PyErr
  | jsonDecodeError : PyErr
deriving DecidableEq

/-- Reading `lightning[k]` as a number: a missing key raises `KeyError`; a
non-numeric value raises `TypeError` (in the source, at the ensuing float
arithmetic). -/
def getNumField (d : Dict) (k : String) : Except PyErr ℝ :=
  match dictGet d k with
  | some (JVal.num x) => Except.ok x
  | some _ => Except.error PyErr.typeError
  | none => Except.error (PyErr.keyError k)

/-- The two dict updates performed by `compute_polar_coords`:
`lightning[ATTR_LIGHTNING_DISTANCE] = distance`,
`lightning[ATTR_LIGHTNING_AZIMUTH] = azimuth` (keys `"distance"` and
`"azimuth"` per `const.py`). -/
noncomputable def polar_enriched (olat olon slat slon : ℝ) (d : Dict) : Dict :=
  dictSet (dictSet d "distance" (JVal.num (lightning_distance olat olon slat slon)))
    "azimuth" (JVal.num ((lightning_azimuth olat olon slat slon : ℤ) : ℝ))

/-- `BlitzortungCoordinator.compute_polar_coords`: reads `lat` and `lon`
from the dict and mutates it, adding the derived `distance` and `azimuth`
entries.  Exceptions propagate (there is no handler in the source). -/
noncomputable def compute_polar_coords (olat olon : ℝ) (lightning : Dict) :
    Except PyErr Dict := do
  let slat ← getNumField lightning "lat"
  let slon ← getNumField lightning "lon"
  Except.ok (polar_enriched olat olon slat slon lightning)

/-- The enrichment `on_mqtt_message` applies on the accepted path with
geocoding disabled: `lightning["area"] = lightning["location"] =
"Geocoding Disabled"`. -/
def geocoding_disabled_enrich (d : Dict) : Dict :=
  dictSet (dictSet d "area" (JVal.str "Geocoding Disabled"))
    "location" (JVal.str "Geocoding Disabled")

/-- Python `message.topic.startswith("blitzortung/1.1")` — the strike-topic
test of `on_mqtt_message`. -/
def is_strike_topic (topic : String) : Bool :=
  "blitzortung/1.1".data.isPrefixOf topic.data

/-- `BlitzortungCoordinator.on_mqtt_message`, strike path, in the
geocoding-disabled configuration (`geocoding_service is None`; with
geocoding enabled the handler additionally overwrites `primary_area` and
`country` on success).  `decoded` is the outcome of
`json_loads_object(message.payload)`.  The result is `Except.error e` when
the Python handler raises `e`; `Except.ok (some d)` when the enriched dict
`d` is fanned out to every lightning callback and sensor; `Except.ok none`
when nothing is fanned out.  (The registered raw-message receivers are
invoked before any of this, for every message, and are not modelled.) -/
noncomputable def on_mqtt_message (olat olon radius : ℝ) (topic : String)
    (decoded : Except PyErr Dict) : Except PyErr (Option Dict) :=
  if is_strike_topic topic then
    match decoded with
    | Except.error e => Except.error e
    | Except.ok lightning =>
      match compute_polar_coords olat olon lightning with
      | Except.error e => Except.error e
      | Except.ok lightning' =>
        match getNumField lightning' "distance" with
        | Except.error e => Except.error e
        | Except.ok dist =>
          if dist < radius then
            Except.ok (some (geocoding_disabled_enrich lightning'))
          else
            Except.ok none
  else
    Except.ok none

/-! ### Idle detection -/

/-- `BlitzortungCoordinator.is_inactive`:
`bool(self.time_window_seconds and (time.time() - self.last_time) >= self.time_window_seconds)`.
Timestamps are floats, modelled as rationals; `time_window_seconds` is a
non-negative integer.  A pure predicate of the inputs. -/
def is_inactive (time_window_seconds : ℕ) (now last_time : ℚ) : Bool :=
  decide (time_window_seconds ≠ 0) &&
    decide (now - last_time ≥ (time_window_seconds : ℚ))

/-! ### The reverse-geocoding cache
Embedding of `GeocodingService._add_to_cache` and the cache interaction of
`GeocodingService.reverse_geocode` (`geocoding_utils.py`).  The module-level
dict `_geocoding_cache` keyed by rounded coordinates is an insertion-ordered
association list; `_max_cache_size = 500`. -/

abbrev GeoCache := List ((ℚ × ℚ) × Dict)

/-- Python `_geocoding_cache.get(k)` membership probe. -/
def cacheGet (c : GeoCache) (k : ℚ × ℚ) : Option Dict :=
  match c with
  | [] => none
  | (k', v) :: rest => if k' = k then some v else cacheGet rest k

/-- Python `_geocoding_cache[k] = v`. -/
def cacheSet (c : GeoCache) (k : ℚ × ℚ) (v : Dict) : GeoCache :=
  match c with
  | [] => [(k, v)]
  | (k', v') :: rest => if k' = k then (k, v) :: rest else (k', v') :: cacheSet rest k v

/-- `GeocodingService._add_to_cache`: when the cache is at (or above)
capacity, delete the first-inserted entry (`next(iter(...))`), then
insert. -/
def add_to_cache (c : GeoCache) (k : ℚ × ℚ) (v : Dict) : GeoCache :=
  cacheSet (if 500 ≤ c.length then c.drop 1 else c) k v

/-- The cache effect of `GeocodingService.reverse_geocode`: on a cache hit
the cache is untouched; on a miss, a successful fetch (`fetched = some v`)
is inserted through `_add_to_cache`, and any failure path leaves the cache
untouched. -/
def reverse_geocode_cache (c : GeoCache) (k : ℚ × ℚ) (fetched : Option Dict) :
    GeoCache :=
  if (cacheGet c k).isSome then c
  else
    match fetched with
    | some v => add_to_cache c k v
    | none => c

/-! ### The geohash codec
The package imports a vendored `geohash` module that is not among the given
sources, so the codec is modelled from the spec (section 4.1): base-32
encoding by interleaved binary subdivision of latitude/longitude, the exact
bounding rectangle of a tile, and the adjacent tiles at the same precision
with antimeridian wraparound and saturation at the pole rows. -/

/-- The geohash base-32 alphabet. -/
def ghAlphabet : List Char :=
  ['0', '1', '2', '3', '4', '5', '6', '7', '8', '9', 'b', 'c', 'd', 'e',
   'f', 'g', 'h', 'j', 'k', 'm', 'n', 'p', 'q', 'r', 's', 't', 'u', 'v',
   'w', 'x', 'y', 'z']

/-- Five bits (most significant first) to a number in `[0, 32)`. -/
def natOfBits5 (a b c d e : Bool) : ℕ :=
  16 * a.toNat + 8 * b.toNat + 4 * c.toNat + 2 * d.toNat + e.toNat

/-- Five bits to a base-32 character. -/
def charOfBits5 (a b c d e : Bool) : Char :=
  ghAlphabet.getD (natOfBits5 a b c d e) '?'

/-- A number in `[0, 32)` back to its five bits. -/
def bitsOfNat5 (m : ℕ) : List Bool :=
  [decide (m / 16 % 2 = 1), decide (m / 8 % 2 = 1), decide (m / 4 % 2 = 1),
   decide (m / 2 % 2 = 1), decide (m % 2 = 1)]

/-- A base-32 character back to its five bits. -/
def bitsOfChar (c : Char) : List Bool := bitsOfNat5 (ghAlphabet.indexOf c)

/-- Pack a bit stream into base-32 characters, five bits per character. -/
def charsOfBits : List Bool → List Char
  | a :: b :: c :: d :: e :: rest => charOfBits5 a b c d e :: charsOfBits rest
  | _ => []

/-- Modelled from the spec: the interleaved subdivision bits of a point in
the standard geohash algorithm.  `evenLon = true` means the next bit
subdivides the longitude interval; a point at or above the midpoint takes
the upper half. -/
def gh_bits (lat lon : ℚ) : ℕ → ℚ → ℚ → ℚ → ℚ → Bool → List Bool
  | 0, _, _, _, _, _ => []
  | Nat.succ m, latlo, lathi, lonlo, lonhi, true =>
    let mid := (lonlo + lonhi) / 2
    if mid ≤ lon then true :: gh_bits lat lon m latlo lathi mid lonhi false
    else false :: gh_bits lat lon m latlo lathi lonlo mid false
  | Nat.succ m, latlo, lathi, lonlo, lonhi, false =>
    let mid := (latlo + lathi) / 2
    if mid ≤ lat then true :: gh_bits lat lon m mid lathi lonlo lonhi true
    else false :: gh_bits lat lon m latlo mid lonlo lonhi true

/-- Modelled from the spec: `geohash.encode` at the given precision. -/
def encode (lat lon : ℚ) (precision : ℕ) : String :=
  String.mk (charsOfBits (gh_bits lat lon (5 * precision) (-90) 90 (-180) 180 true))

/-- A south/west/north/east bounding rectangle (source `geohash_utils.Box`). -/
structure Box (α : Type) where
  s : α
  w : α
  n : α
  e : α

/-- Replay a bit stream, narrowing the world rectangle; the decoding
direction of the standard geohash algorithm. -/
def box_of_bits : List Bool → ℚ → ℚ → ℚ → ℚ → Bool → Box ℚ
  | [], latlo, lathi, lonlo, lonhi, _ => ⟨latlo, lonlo, lathi, lonhi⟩
  | b :: bs, latlo, lathi, lonlo, lonhi, true =>
    let mid := (lonlo + lonhi) / 2
    if b then box_of_bits bs latlo lathi mid lonhi false
    else box_of_bits bs latlo lathi lonlo mid false
  | b :: bs, latlo, lathi, lonlo, lonhi, false =>
    let mid := (latlo + lathi) / 2
    if b then box_of_bits bs mid lathi lonlo lonhi true
    else box_of_bits bs latlo mid lonlo lonhi true

/-- Modelled from the spec: `geohash.bbox`, wrapped by
`geohash_utils.geohash_bbox` into a `Box`: the exact rectangle a tile
represents. -/
def geohash_bbox (gh : String) : Box ℚ :=
  box_of_bits (List.flatten (gh.data.map bitsOfChar)) (-90) 90 (-180) 180 true

/-- Wrap a longitude into `[-180, 180)`. -/
def wrapLon (x : ℚ) : ℚ := x - 360 * (⌊(x + 180) / 360⌋ : ℤ)

/-- Modelled from the spec: `geohash.neighbors` — the tiles adjacent to a
tile at the same precision (N, S, E, W and the four diagonals), wrapping
across the antimeridian and omitting rows beyond the poles. -/
def neighbors (gh : String) : List String :=
  let b := geohash_bbox gh
  let clat := (b.s + b.n) / 2
  let clon := (b.w + b.e) / 2
  let dlat := b.n - b.s
  let dlon := b.e - b.w
  ([(1, -1), (1, 0), (1, 1), (0, -1), (0, 1), (-1, -1), (-1, 0), (-1, 1)] :
      List (ℚ × ℚ)).filterMap fun d =>
    let nlat := clat + d.1 * dlat
    if 90 < nlat ∨ nlat < -90 then none
    else some (encode nlat (wrapLon (clon + d.2 * dlon)) gh.length)

/-! ### The tile coverage solver (`geohash_utils.py`) -/

/-- `geohash_utils.bbox`: the rectangle around `(lat, lon)` spanned by the
radius, `lat_delta = radius * 360 / 40000`,
`lon_delta = lat_delta / cos(lat * pi / 180)`.  The float inputs are
rationals; the cosine is exact, hence a real-valued box. -/
noncomputable def bbox (lat lon radius : ℚ) : Box ℝ :=
  let lat_delta : ℚ := radius * 360 / 40000
  let lon_delta : ℝ := (lat_delta : ℝ) / Real.cos ((lat : ℝ) * Real.pi / 180)
  ⟨(lat : ℝ) - (lat_delta : ℝ), (lon : ℝ) - lon_delta,
   (lat : ℝ) + (lat_delta : ℝ), (lon : ℝ) + lon_delta⟩

/-- `geohash_utils.overlap`: two open ranges overlap (strict comparisons). -/
def overlap {α : Type} [LT α] (a1 a2 b1 b2 : α) : Prop := a1 < b2 ∧ a2 > b1

/-- `geohash_utils.box_overlap`: boxes overlap iff both axes overlap. -/
def box_overlap {α : Type} [LT α] (box1 box2 : Box α) : Prop :=
  overlap box1.s box1.n box2.s box2.n ∧ overlap box1.w box1.e box2.w box2.e

instance {α : Type} [LinearOrder α] (a1 a2 b1 b2 : α) :
    Decidable (overlap a1 a2 b1 b2) :=
  decidable_of_iff (a1 < b2 ∧ b1 < a2) (by simp [overlap, GT.gt])

instance {α : Type} [LinearOrder α] (box1 box2 : Box α) :
    Decidable (box_overlap box1 box2) := by
  unfold box_overlap; infer_instance

/-- The rational tile box viewed in the reals. -/
def castBox (b : Box ℚ) : Box ℝ := ⟨(b.s : ℝ), (b.w : ℝ), (b.n : ℝ), (b.e : ℝ)⟩

/-- The flood-fill admission test of `compute_geohash_tiles`:
`box_overlap(geohash_bbox(neighbor), bounds)`. -/
noncomputable def tile_keep (lat lon radius : ℚ) (t : String) : Bool :=
  decide (box_overlap (castBox (geohash_bbox t)) (bbox lat lon radius))

/-- The worklist loop of `geohash_utils.compute_geohash_tiles`: Python sets
are modelled as insertion-ordered duplicate-free lists, the arbitrary
`set.pop` order as head-first; the membership closure reached is the same.
`fuel` bounds the number of pops (each pop is a previously pushed tile and
every pushed tile enters `checked` exactly once, so any fuel at least the
number of tiles at the precision is never exhausted). -/
def flood_fill (keep : String → Bool) : ℕ → List String → List String → List String
  | 0, _, checked => checked
  | _ + 1, [], checked => checked
  | fuel + 1, current :: stack, checked =>
    let step := (neighbors current).foldl
      (fun (acc : List String × List String) nb =>
        if nb ∈ acc.2 then acc
        else if keep nb then (acc.1 ++ [nb], acc.2 ++ [nb])
        else acc)
      (stack, checked)
    flood_fill keep fuel step.1 step.2

/-- `geohash_utils.compute_geohash_tiles`: flood fill from the tile
containing the center, keeping tiles whose box overlaps the target box. -/
noncomputable def compute_geohash_tiles (lat lon radius : ℚ) (precision : ℕ) :
    List String :=
  let center := encode lat lon precision
  flood_fill (tile_keep lat lon radius) (32 ^ precision) [center] [center]

/-- The `for precision in range(1, 13)` loop of
`geohash_utils.geohash_overlap`: keep the last tile set within the budget
of 9, stop at the first precision that exceeds it. -/
noncomputable def geohash_overlap_loop (lat lon radius : ℚ) :
    ℕ → ℕ → List String → List String
  | 0, _, result => result
  | fuel + 1, precision, result =>
    if 13 ≤ precision then result
    else
      if (compute_geohash_tiles lat lon radius precision).length ≤ 9 then
        geohash_overlap_loop lat lon radius fuel (precision + 1)
          (compute_geohash_tiles lat lon radius precision)
      else result

/-- `geohash_utils.geohash_overlap` (the `_max_tiles` parameter is unused
in the source; the budget is the literal 9). -/
noncomputable def geohash_overlap (lat lon radius : ℚ) : List String :=
  geohash_overlap_loop lat lon radius 13 1 []

/-! #### A computable specialization at the equator
At latitude 0 the cosine in `bbox` is exactly 1, so the target box is
rational and the solver becomes computable; the `..._zero` lemmas below
identify it with the real-valued embedding, letting concrete runs be
settled by `decide`. -/

/-- Admission test against a rational target box. -/
def tile_keepQ (tb : Box ℚ) (t : String) : Bool :=
  decide (box_overlap (geohash_bbox t) tb)

/-- The target box of `bbox` at latitude 0. -/
def bbox0 (lon radius : ℚ) : Box ℚ :=
  let d := radius * 360 / 40000
  ⟨-d, lon - d, d, lon + d⟩

/-- `compute_geohash_tiles` at latitude 0, computably. -/
def compute_geohash_tiles0 (lon radius : ℚ) (precision : ℕ) : List String :=
  let center := encode 0 lon precision
  flood_fill (tile_keepQ (bbox0 lon radius)) (32 ^ precision) [center] [center]

/-- The precision loop at latitude 0, computably. -/
def geohash_overlap_loop0 (lon radius : ℚ) : ℕ → ℕ → List String → List String
  | 0, _, result => result
  | fuel + 1, precision, result =>
    if 13 ≤ precision then result
    else
      if (compute_geohash_tiles0 lon radius precision).length ≤ 9 then
        geohash_overlap_loop0 lon radius fuel (precision + 1)
          (compute_geohash_tiles0 lon radius precision)
      else result

/-- `geohash_overlap` at latitude 0, computably. -/
def geohash_overlap0 (lon radius : ℚ) : List String :=
  geohash_overlap_loop0 lon radius 13 1 []

/-! ### The coordinator state machine
Embedding of the location-tracking and subscription state of
`BlitzortungCoordinator`.  The MQTT transport (a repository module not
among the given sources) is modelled per the spec's transport capability:
the broker-held subscription set plus a chronological log of
subscribe/unsubscribe calls. -/

structure Coordinator where
  latitude : ℚ
  longitude : ℚ
  radius : ℚ
  geohashOverlap : List String
  connected : Bool
  locationAvailable : Bool
  unloading : Bool
  deviceTrackerMode : Bool
  heldSubs : Finset String
  subscribeCalls : List String
  unsubscribeCalls : List String

/-- `BlitzortungCoordinator._resubscribe_geohashes`: one subscribe call per
tile of the current overlap; despite its name and its comment, the source
issues no unsubscribe call. -/
def resubscribe_geohashes (s : Coordinator) : Coordinator :=
  { s with heldSubs := s.heldSubs ∪ s.geohashOverlap.toFinset,
           subscribeCalls := s.subscribeCalls ++ s.geohashOverlap }

/-- `BlitzortungCoordinator._update_location`: set the point, recompute the
overlap, and if it changed (Python set inequality) store it and, when
connected, schedule `_resubscribe_geohashes`. -/
noncomputable def update_location (s : Coordinator) (nlat nlon : ℚ) : Coordinator :=
  let s1 := { s with latitude := nlat, longitude := nlon }
  let newOverlap := geohash_overlap nlat nlon s.radius
  if newOverlap.toFinset ≠ s.geohashOverlap.toFinset then
    let s2 := { s1 with geohashOverlap := newOverlap }
    if s.connected then resubscribe_geohashes s2 else s2
  else s1

/-- `BlitzortungCoordinator._device_tracker_state_changed`: `newState` is
whether the event carries a state, `loc` the tracker's location (None on
unavailable/unknown/malformed attributes).  A movement of at most 0.001
degrees on both axes is ignored. -/
noncomputable def device_tracker_state_changed (s : Coordinator) (newState : Bool)
    (loc : Option (ℚ × ℚ)) : Coordinator :=
  if s.unloading ∨ ¬ s.deviceTrackerMode then s
  else if ¬ newState then s
  else
    match loc with
    | some p =>
      if 1/1000 < |p.1 - s.latitude| ∨ 1/1000 < |p.2 - s.longitude| then
        { update_location s p.1 p.2 with locationAvailable := true }
      else s
    | none =>
      if s.locationAvailable then { s with locationAvailable := false } else s

/-- The fields `BlitzortungCoordinator.__init__` sets that matter here;
the overlap is computed eagerly from the initial point. -/
noncomputable def init_coordinator (lat lon radius : ℚ) (deviceTracker : Bool) :
    Coordinator :=
  { latitude := lat, longitude := lon, radius := radius,
    geohashOverlap := geohash_overlap lat lon radius,
    connected := false, locationAvailable := true, unloading := false,
    deviceTrackerMode := deviceTracker,
    heldSubs := ∅, subscribeCalls := [], unsubscribeCalls := [] }

/-- The subscription step of `BlitzortungCoordinator.connect`: one
subscribe per tile of the current overlap. -/
def connect_subscribe (s : Coordinator) : Coordinator :=
  { s with connected := true,
           heldSubs := s.heldSubs ∪ s.geohashOverlap.toFinset,
           subscribeCalls := s.subscribeCalls ++ s.geohashOverlap }

/-! ## Theorems -/

/-! ### Transfer of the solver to its computable equator specialization -/

theorem overlap_castBox (a b : Box ℚ) :
    box_overlap (castBox a) (castBox b) ↔ box_overlap a b := by
  simp [box_overlap, overlap, castBox, GT.gt, Rat.cast_lt]

theorem bbox_zero (lon radius : ℚ) : bbox 0 lon radius = castBox (bbox0 lon radius) := by
  unfold bbox bbox0 castBox
  simp only [Rat.cast_zero, zero_mul, zero_div, Real.cos_zero, div_one]
  rw [Box.mk.injEq]
  refine ⟨?_, ?_, ?_, ?_⟩ <;> push_cast <;> ring

theorem tile_keep_zero (lon radius : ℚ) (t : String) :
    tile_keep 0 lon radius t = tile_keepQ (bbox0 lon radius) t := by
  unfold tile_keep tile_keepQ
  rw [bbox_zero]
  exact decide_eq_decide.mpr (overlap_castBox _ _)

theorem flood_fill_congr (k1 k2 : String → Bool) (h : ∀ t, k1 t = k2 t) :
    flood_fill k1 = flood_fill k2 :=
  congrArg flood_fill (funext h)

theorem compute_geohash_tiles_zero (lon radius : ℚ) (precision : ℕ) :
    compute_geohash_tiles 0 lon radius precision =
      compute_geohash_tiles0 lon radius precision := by
  unfold compute_geohash_tiles compute_geohash_tiles0
  rw [flood_fill_congr _ _ (tile_keep_zero lon radius)]

theorem geohash_overlap_loop_zero (lon radius : ℚ) (fuel precision : ℕ)
    (result : List String) :
    geohash_overlap_loop 0 lon radius fuel precision result =
      geohash_overlap_loop0 lon radius fuel precision result := by
  induction fuel generalizing precision result with
  | zero => rfl
  | succ fuel ih =>
    rw [geohash_overlap_loop, geohash_overlap_loop0, compute_geohash_tiles_zero]
    split
    · rfl
    · split
      · exact ih _ _
      · rfl

theorem geohash_overlap_zero (lon radius : ℚ) :
    geohash_overlap 0 lon radius = geohash_overlap0 lon radius :=
  geohash_overlap_loop_zero lon radius 13 1 []

/-! ### Idle detection (claim C9) -/

/-- Claim C9: `is_inactive` is true exactly when `time_window_seconds` is
non-zero and `now - last_time >= time_window_seconds`; with a zero window it
is identically false.  The embedding `is_inactive` is a plain function of
its inputs, so evaluating it has no effect on any state. -/
theorem C9_is_inactive_iff (tws : ℕ) (now last_time : ℚ) :
    (is_inactive tws now last_time = true ↔
      tws ≠ 0 ∧ (tws : ℚ) ≤ now - last_time) ∧
    is_inactive 0 now last_time = false := by
  constructor
  · simp [is_inactive, ge_iff_le]
  · simp [is_inactive]

/-! ### The geocoding cache bound (claim C10) -/

theorem cacheSet_length_le (c : GeoCache) (k : ℚ × ℚ) (v : Dict) :
    (cacheSet c k v).length ≤ c.length + 1 := by
  induction c with
  | nil => simp [cacheSet]
  | cons hd tl ih =>
    by_cases h : hd.1 = k
    · simp [cacheSet, h]
    · simp only [cacheSet, if_neg h, List.length_cons]
      omega

theorem add_to_cache_length (c : GeoCache) (k : ℚ × ℚ) (v : Dict)
    (h : c.length ≤ 500) : (add_to_cache c k v).length ≤ 500 := by
  unfold add_to_cache
  by_cases hc : 500 ≤ c.length
  · calc (cacheSet (if 500 ≤ c.length then c.drop 1 else c) k v).length
        ≤ (if 500 ≤ c.length then c.drop 1 else c).length + 1 := cacheSet_length_le _ _ _
      _ ≤ 500 := by rw [if_pos hc]; simp; omega
  · calc (cacheSet (if 500 ≤ c.length then c.drop 1 else c) k v).length
        ≤ (if 500 ≤ c.length then c.drop 1 else c).length + 1 := cacheSet_length_le _ _ _
      _ ≤ 500 := by rw [if_neg hc]; omega

/-- Claim C10: the geocoding cache never exceeds 500 entries: `_add_to_cache`
evicts the first-inserted entry when at capacity before inserting, and the
cache effect of `reverse_geocode` (which only inserts through
`_add_to_cache`) preserves the bound. -/
theorem C10_cache_bound (c : GeoCache) (k : ℚ × ℚ) (v : Dict)
    (fetched : Option Dict) (h : c.length ≤ 500) :
    (add_to_cache c k v).length ≤ 500 ∧
    (reverse_geocode_cache c k fetched).length ≤ 500 ∧
    (c.length = 500 → add_to_cache c k v = cacheSet (c.drop 1) k v) := by
  refine ⟨add_to_cache_length c k v h, ?_, ?_⟩
  · unfold reverse_geocode_cache
    split
    · exact h
    · match fetched with
      | some v' => exact add_to_cache_length c k v' h
      | none => exact h
  · intro hfull
    unfold add_to_cache
    rw [if_pos (by omega)]

/-- Witness for C10 at the empty cache. -/
theorem C10_cache_bound_witness :
    (add_to_cache [] (0, 0) []).length ≤ 500 ∧
    (reverse_geocode_cache [] (0, 0) none).length ≤ 500 ∧
    (([] : GeoCache).length = 500 →
      add_to_cache [] (0, 0) [] = cacheSet (List.drop 1 []) (0, 0) []) :=
  C10_cache_bound [] (0, 0) [] none (by simp)

/-! ### Polar coordinates (claim C8) -/

theorem round1_zero : round1 0 = 0 := by
  simp [round1]

theorem atan2_zero : atan2 0 0 = 0 := by
  have h0 : (⟨0, 0⟩ : ℂ) = 0 := Complex.ext rfl rfl
  simp [atan2, h0]

theorem polar_dy_self (olat : ℝ) : polar_dy olat olat = 0 := by
  simp [polar_dy]

theorem polar_dx_self (olat olon : ℝ) : polar_dx olat olon olon = 0 := by
  simp [polar_dx]

/-- Claim C8: a strike at the observer's own point gets distance `0.0` and
azimuth `0`, and every computed azimuth is an integer in `[0, 360)`. -/
theorem C8_degenerate_and_azimuth_range (olat olon slat slon : ℝ) :
    lightning_distance olat olon olat olon = 0 ∧
    lightning_azimuth olat olon olat olon = 0 ∧
    0 ≤ lightning_azimuth olat olon slat slon ∧
    lightning_azimuth olat olon slat slon < 360 := by
  refine ⟨?_, ?_, ?_, ?_⟩
  · simp [lightning_distance, polar_dy_self, polar_dx_self, round1_zero]
  · simp [lightning_azimuth, polar_dy_self, polar_dx_self, atan2_zero]
  · exact Int.emod_nonneg _ (by norm_num)
  · exact Int.emod_lt_of_pos _ (by norm_num)

/-! ### Dict lemmas and the message pipeline (claims C4, C5, C7) -/

theorem dictGet_dictSet_self (d : Dict) (k : String) (v : JVal) :
    dictGet (dictSet d k v) k = some v := by
  induction d with
  | nil => simp [dictSet, dictGet]
  | cons hd tl ih =>
    obtain ⟨k', v'⟩ := hd
    by_cases h : k' = k
    · simp [dictSet, dictGet, h]
    · simp [dictSet, dictGet, h, ih]

theorem dictGet_dictSet_ne (d : Dict) (k q : String) (v : JVal) (h : q ≠ k) :
    dictGet (dictSet d k v) q = dictGet d q := by
  have h' : ¬ k = q := fun hh => h hh.symm
  induction d with
  | nil => simp [dictSet, dictGet, h']
  | cons hd tl ih =>
    obtain ⟨k', v'⟩ := hd
    by_cases hk : k' = k
    · subst hk
      simp [dictSet, dictGet, h']
    · by_cases hq : k' = q
      · subst hq
        simp [dictSet, dictGet, hk]
      · simp [dictSet, dictGet, hk, hq, ih]

theorem getNumField_of_dictGet (d : Dict) (k : String) (x : ℝ)
    (h : dictGet d k = some (JVal.num x)) : getNumField d k = Except.ok x := by
  simp [getNumField, h]

theorem compute_polar_coords_ok (olat olon slat slon : ℝ) (d : Dict)
    (hlat : getNumField d "lat" = Except.ok slat)
    (hlon : getNumField d "lon" = Except.ok slon) :
    compute_polar_coords olat olon d =
      Except.ok (polar_enriched olat olon slat slon d) := by
  simp [compute_polar_coords, hlat, hlon, Bind.bind, Except.bind]

theorem getNumField_polar_enriched (olat olon slat slon : ℝ) (d : Dict) :
    getNumField (polar_enriched olat olon slat slon d) "distance" =
      Except.ok (lightning_distance olat olon slat slon) := by
  unfold polar_enriched getNumField
  rw [dictGet_dictSet_ne _ _ _ _ (by decide), dictGet_dictSet_self]

/-- The accepted-topic shape of `on_mqtt_message` on a well-formed strike
payload: everything reduces to the strict radius test on the computed
distance. -/
theorem on_mqtt_message_ok (olat olon radius : ℝ) (topic : String) (d : Dict)
    (slat slon : ℝ)
    (hlat : dictGet d "lat" = some (JVal.num slat))
    (hlon : dictGet d "lon" = some (JVal.num slon))
    (hpre : is_strike_topic topic = true) :
    on_mqtt_message olat olon radius topic (Except.ok d) =
      if lightning_distance olat olon slat slon < radius then
        Except.ok (some (geocoding_disabled_enrich (polar_enriched olat olon slat slon d)))
      else Except.ok none := by
  rw [on_mqtt_message, if_pos hpre,
    compute_polar_coords_ok olat olon slat slon d
      (getNumField_of_dictGet d "lat" slat hlat)
      (getNumField_of_dictGet d "lon" slon hlon)]
  dsimp only
  rw [getNumField_polar_enriched]

/-- Claim C4: on a well-formed payload, the lightning listeners and sensors
are invoked exactly when the topic starts with `blitzortung/1.1` and the
computed distance is strictly below the radius; a strike at exactly the
radius is never propagated, one at `radius - 0.1` is. -/
theorem C4_relevance_filter (olat olon radius : ℝ) (topic : String) (d : Dict)
    (slat slon : ℝ)
    (hlat : dictGet d "lat" = some (JVal.num slat))
    (hlon : dictGet d "lon" = some (JVal.num slon)) :
    ((∃ out, on_mqtt_message olat olon radius topic (Except.ok d) =
        Except.ok (some out)) ↔
      (is_strike_topic topic = true ∧
        lightning_distance olat olon slat slon < radius)) ∧
    (lightning_distance olat olon slat slon = radius →
      ∀ out, on_mqtt_message olat olon radius topic (Except.ok d) ≠
        Except.ok (some out)) ∧
    (lightning_distance olat olon slat slon = radius - 1/10 →
      is_strike_topic topic = true →
      ∃ out, on_mqtt_message olat olon radius topic (Except.ok d) =
        Except.ok (some out)) := by
  by_cases hpre : is_strike_topic topic = true
  · rw [on_mqtt_message_ok olat olon radius topic d slat slon hlat hlon hpre]
    by_cases hd : lightning_distance olat olon slat slon < radius
    · rw [if_pos hd]
      refine ⟨⟨fun _ => ⟨hpre, hd⟩, fun _ => ⟨_, rfl⟩⟩, ?_, ?_⟩
      · intro heq
        exact absurd hd (by rw [heq]; exact lt_irrefl radius)
      · intro _ _
        exact ⟨_, rfl⟩
    · rw [if_neg hd]
      refine ⟨⟨?_, ?_⟩, ?_, ?_⟩
      · rintro ⟨out, hout⟩
        exact absurd hout (by simp)
      · rintro ⟨_, hlt⟩
        exact absurd hlt hd
      · intro _ out hout
        exact absurd hout (by simp)
      · intro hdist _
        exact absurd (by rw [hdist]; linarith : lightning_distance olat olon slat slon < radius) hd
  · have hpre' : is_strike_topic topic = false := by
      simpa using hpre
    rw [on_mqtt_message, if_neg (by simp [hpre'])]
    refine ⟨⟨?_, ?_⟩, ?_, ?_⟩
    · rintro ⟨out, hout⟩
      exact absurd hout (by simp)
    · rintro ⟨hp, _⟩
      exact absurd hp hpre
    · intro _ out hout
      exact absurd hout (by simp)
    · intro _ hp
      exact absurd hp hpre

/-- Claim C5 (amended): on a strike topic, a malformed payload or a missing
required coordinate field invokes no lightning listener or sensor, but the
error propagates out of `on_mqtt_message` (there is no handler) instead of
being silently dropped. -/
theorem C5_decode_failure (olat olon radius : ℝ) (topic : String) (e : PyErr)
    (d : Dict) (hpre : is_strike_topic topic = true) :
    on_mqtt_message olat olon radius topic (Except.error e) = Except.error e ∧
    (dictGet d "lat" = none →
      on_mqtt_message olat olon radius topic (Except.ok d) =
        Except.error (PyErr.keyError "lat")) ∧
    (∀ x : ℝ, dictGet d "lat" = some (JVal.num x) → dictGet d "lon" = none →
      on_mqtt_message olat olon radius topic (Except.ok d) =
        Except.error (PyErr.keyError "lon")) := by
  refine ⟨?_, ?_, ?_⟩
  · rw [on_mqtt_message, if_pos hpre]
  · intro hmiss
    rw [on_mqtt_message, if_pos hpre]
    have hc : compute_polar_coords olat olon d = Except.error (PyErr.keyError "lat") := by
      simp [compute_polar_coords, getNumField, hmiss, Bind.bind, Except.bind]
    rw [hc]
  · intro x hx hmiss
    rw [on_mqtt_message, if_pos hpre]
    have hc : compute_polar_coords olat olon d = Except.error (PyErr.keyError "lon") := by
      simp [compute_polar_coords, getNumField, hx, hmiss, Bind.bind, Except.bind]
    rw [hc]

/-- Counterexample to claim C5 as stated: a malformed strike payload is not
silently dropped — `on_mqtt_message` raises the decode error. -/
theorem C5_counterexample :
    on_mqtt_message 0 0 10 "blitzortung/1.1/s" (Except.error PyErr.jsonDecodeError) =
      Except.error PyErr.jsonDecodeError ∧
    on_mqtt_message 0 0 10 "blitzortung/1.1/s" (Except.error PyErr.jsonDecodeError) ≠
      Except.ok none := by
  have hpre : is_strike_topic "blitzortung/1.1/s" = true := by decide
  constructor
  · rw [on_mqtt_message, if_pos hpre]
  · rw [on_mqtt_message, if_pos hpre]
    simp

/-- Claim C7 (amended): on an accepted strike, every payload field other
than the derived `distance` and `azimuth` and the enrichment keys `area`
and `location` is delivered to listeners unchanged. -/
theorem C7_field_passthrough (olat olon radius : ℝ) (topic : String)
    (d out : Dict) (slat slon : ℝ) (q : String)
    (hlat : dictGet d "lat" = some (JVal.num slat))
    (hlon : dictGet d "lon" = some (JVal.num slon))
    (hout : on_mqtt_message olat olon radius topic (Except.ok d) =
      Except.ok (some out))
    (h1 : q ≠ "distance") (h2 : q ≠ "azimuth") (h3 : q ≠ "area")
    (h4 : q ≠ "location") :
    dictGet out q = dictGet d q := by
  by_cases hpre : is_strike_topic topic = true
  · rw [on_mqtt_message_ok olat olon radius topic d slat slon hlat hlon hpre] at hout
    by_cases hd : lightning_distance olat olon slat slon < radius
    · rw [if_pos hd] at hout
      have hshape : out = geocoding_disabled_enrich (polar_enriched olat olon slat slon d) := by
        injection hout with h
        injection h with h
        exact h.symm
      subst hshape
      unfold geocoding_disabled_enrich polar_enriched
      rw [dictGet_dictSet_ne _ _ _ _ h4, dictGet_dictSet_ne _ _ _ _ h3,
        dictGet_dictSet_ne _ _ _ _ h2, dictGet_dictSet_ne _ _ _ _ h1]
    · rw [if_neg hd] at hout
      exact absurd hout (by simp)
  · have hpre' : is_strike_topic topic = false := by simpa using hpre
    rw [on_mqtt_message, if_neg (by simp [hpre'])] at hout
    exact absurd hout (by simp)

/-! ### Concrete distance evaluations -/

theorem round1_eq_int (x : ℝ) (n : ℤ) (h1 : (n : ℝ) ≤ 10 * x + 1/2)
    (h2 : 10 * x + 1/2 < (n : ℝ) + 1) : round1 x = (n : ℝ) / 10 := by
  unfold round1
  rw [round_eq, Int.floor_eq_iff.mpr ⟨h1, h2⟩]

theorem round1_sub_le (x : ℝ) : x - 1/20 ≤ round1 x ∧ round1 x ≤ x + 1/20 := by
  obtain ⟨ha, hb⟩ := abs_le.mp (abs_sub_round (10 * x))
  unfold round1
  constructor <;> linarith

/-- The distance the code computes for a strike 0.089 degrees north of an
observer at the origin: exactly 9.9 km. -/
theorem lightning_distance_num1 : lightning_distance 0 0 (89/1000) 0 = 99/10 := by
  have hπ1 := Real.pi_gt_d6
  have hπ2 := Real.pi_lt_d6
  have hdy : polar_dy 0 (89/1000) = 89/1000 * Real.pi / 180 := by
    simp [polar_dy]
  have hdx : polar_dx 0 0 0 = 0 := polar_dx_self 0 0
  simp only [lightning_distance, hdy, hdx]
  rw [show (0:ℝ) * 0 + 89/1000 * Real.pi / 180 * (89/1000 * Real.pi / 180) =
    (89/1000 * Real.pi / 180) ^ 2 by ring]
  rw [Real.sqrt_sq (by positivity)]
  rw [round1_eq_int (89/1000 * Real.pi / 180 * 6371) 99
    (by push_cast; linarith) (by push_cast; linarith)]
  rw [round1_eq_int (((99:ℤ):ℝ)/10) 99 (by push_cast; norm_num)
    (by push_cast; norm_num)]
  norm_num

/-- The distance the code computes for a strike 0.09 degrees north of an
observer at the origin: exactly 10.0 km. -/
theorem lightning_distance_num2 : lightning_distance 0 0 (9/100) 0 = 10 := by
  have hπ1 := Real.pi_gt_d6
  have hπ2 := Real.pi_lt_d6
  have hdy : polar_dy 0 (9/100) = 9/100 * Real.pi / 180 := by
    simp [polar_dy]
  have hdx : polar_dx 0 0 0 = 0 := polar_dx_self 0 0
  simp only [lightning_distance, hdy, hdx]
  rw [show (0:ℝ) * 0 + 9/100 * Real.pi / 180 * (9/100 * Real.pi / 180) =
    (9/100 * Real.pi / 180) ^ 2 by ring]
  rw [Real.sqrt_sq (by positivity)]
  rw [round1_eq_int (9/100 * Real.pi / 180 * 6371) 100
    (by push_cast; linarith) (by push_cast; linarith)]
  rw [round1_eq_int (((100:ℤ):ℝ)/10) 100 (by push_cast; norm_num)
    (by push_cast; norm_num)]
  norm_num

/-! ### The distance formula is planar, not haversine (claim C2) -/

/-- Claim C2 fails on the code: at observer `(0,0)` and strike `(90,90)` the
attached distance (planar approximation, ≈ 14152.8 km) is not the haversine
great-circle distance (≈ 10007.5 km) the spec mandates. -/
theorem C2_distance_not_haversine :
    14000 < lightning_distance 0 0 90 90 ∧
    haversine_distance 0 0 90 90 < 10100 ∧
    lightning_distance 0 0 90 90 ≠ haversine_distance 0 0 90 90 := by
  have hπ1 := Real.pi_gt_d6
  have hπ2 := Real.pi_lt_d6
  have hs1 : (1.414213 : ℝ) < Real.sqrt 2 := by
    rw [show (1.414213 : ℝ) = Real.sqrt (1.414213 ^ 2) from
      (Real.sqrt_sq (by norm_num)).symm]
    exact Real.sqrt_lt_sqrt (by positivity) (by norm_num)
  have hplanar : 14000 < lightning_distance 0 0 90 90 := by
    have hdy : polar_dy 0 90 = Real.pi / 2 := by
      simp only [polar_dy, sub_zero]
      ring
    have hdx : polar_dx 0 0 90 = Real.pi / 2 := by
      simp only [polar_dx, sub_zero, zero_mul, zero_div, Real.cos_zero, mul_one]
      ring
    simp only [lightning_distance, hdy, hdx]
    rw [show Real.pi / 2 * (Real.pi / 2) + Real.pi / 2 * (Real.pi / 2) =
      (Real.pi / 2) ^ 2 * 2 by ring]
    rw [Real.sqrt_mul (sq_nonneg _), Real.sqrt_sq (by positivity)]
    have hX : (14152 : ℝ) < Real.pi / 2 * Real.sqrt 2 * 6371 := by
      have hmul : (3.141592 : ℝ) * 1.414213 ≤ Real.pi * Real.sqrt 2 :=
        mul_le_mul (le_of_lt hπ1) (le_of_lt hs1) (by norm_num)
          (le_of_lt (lt_trans (by norm_num) hπ1))
      nlinarith
    have h1 := round1_sub_le (Real.pi / 2 * Real.sqrt 2 * 6371)
    have h2 := round1_sub_le (round1 (Real.pi / 2 * Real.sqrt 2 * 6371))
    linarith
  have hhav : haversine_distance 0 0 90 90 < 10100 := by
    have e1 : ((90:ℝ) - 0) * Real.pi / 180 = Real.pi / 2 := by ring
    have e2 : ((0:ℝ)) * Real.pi / 180 = 0 := by ring
    have e3 : ((90:ℝ)) * Real.pi / 180 = Real.pi / 2 := by ring
    simp only [haversine_distance, e1, e2, e3, Real.cos_zero, Real.cos_pi_div_two,
      one_mul, zero_mul, mul_zero, add_zero]
    rw [show Real.pi / 2 / 2 = Real.pi / 4 by ring, Real.sin_pi_div_four]
    rw [show (Real.sqrt 2 / 2) ^ 2 = 1/2 by
      rw [div_pow, Real.sq_sqrt] <;> norm_num]
    have harc : Real.arcsin (Real.sqrt (1/2)) = Real.pi / 4 := by
      have hsin : Real.sqrt (1/2) = Real.sin (Real.pi/4) := by
        rw [Real.sin_pi_div_four]
        rw [show (1/2 : ℝ) = (Real.sqrt 2 / 2) ^ 2 by
          rw [div_pow, Real.sq_sqrt] <;> norm_num]
        exact Real.sqrt_sq (by positivity)
      rw [hsin, Real.arcsin_sin (by linarith [Real.pi_pos]) (by linarith [Real.pi_pos])]
    rw [harc]
    have h1 := round1_sub_le (6371 * (2 * (Real.pi / 4)))
    linarith
  exact ⟨hplanar, hhav, by intro h; rw [h] at hplanar; linarith⟩

/-! ### Witnesses and counterexamples for the pipeline claims -/

/-- Witness instantiation of the relevance filter at a strike whose computed
distance is exactly the 10 km radius. -/
theorem C4_relevance_filter_witness :
    ((∃ out, on_mqtt_message 0 0 10 "blitzortung/1.1/s"
        (Except.ok [("lat", JVal.num (9/100)), ("lon", JVal.num 0)]) =
          Except.ok (some out)) ↔
      (is_strike_topic "blitzortung/1.1/s" = true ∧
        lightning_distance 0 0 (9/100) 0 < 10)) ∧
    (lightning_distance 0 0 (9/100) 0 = 10 →
      ∀ out, on_mqtt_message 0 0 10 "blitzortung/1.1/s"
        (Except.ok [("lat", JVal.num (9/100)), ("lon", JVal.num 0)]) ≠
          Except.ok (some out)) ∧
    (lightning_distance 0 0 (9/100) 0 = 10 - 1/10 →
      is_strike_topic "blitzortung/1.1/s" = true →
      ∃ out, on_mqtt_message 0 0 10 "blitzortung/1.1/s"
        (Except.ok [("lat", JVal.num (9/100)), ("lon", JVal.num 0)]) =
          Except.ok (some out)) :=
  C4_relevance_filter 0 0 10 "blitzortung/1.1/s"
    [("lat", JVal.num (9/100)), ("lon", JVal.num 0)] (9/100) 0
    (by simp [dictGet]) (by simp [dictGet])

/-- The pipeline accepts the 9.9 km strike bearing a payload field
`area = "Berlin"`. -/
theorem on_mqtt_message_accepts_berlin :
    on_mqtt_message 0 0 10 "blitzortung/1.1/s"
      (Except.ok [("lat", JVal.num (89/1000)), ("lon", JVal.num 0),
        ("area", JVal.str "Berlin")]) =
    Except.ok (some (geocoding_disabled_enrich (polar_enriched 0 0 (89/1000) 0
      [("lat", JVal.num (89/1000)), ("lon", JVal.num 0),
        ("area", JVal.str "Berlin")]))) := by
  rw [on_mqtt_message_ok 0 0 10 "blitzortung/1.1/s" _ (89/1000) 0
    (by simp [dictGet]) (by simp [dictGet]) (by decide)]
  rw [if_pos (by rw [lightning_distance_num1]; norm_num)]

/-- Counterexample to claim C7 as stated: a payload field `area` is not
passed through untouched — the delivered dict carries
`area = "Geocoding Disabled"` instead of the original `"Berlin"`. -/
theorem C7_counterexample :
    dictGet [("lat", JVal.num (89/1000)), ("lon", JVal.num 0),
        ("area", JVal.str "Berlin")] "area" = some (JVal.str "Berlin") ∧
    on_mqtt_message 0 0 10 "blitzortung/1.1/s"
      (Except.ok [("lat", JVal.num (89/1000)), ("lon", JVal.num 0),
        ("area", JVal.str "Berlin")]) =
      Except.ok (some (geocoding_disabled_enrich (polar_enriched 0 0 (89/1000) 0
        [("lat", JVal.num (89/1000)), ("lon", JVal.num 0),
          ("area", JVal.str "Berlin")]))) ∧
    dictGet (geocoding_disabled_enrich (polar_enriched 0 0 (89/1000) 0
      [("lat", JVal.num (89/1000)), ("lon", JVal.num 0),
        ("area", JVal.str "Berlin")])) "area" =
      some (JVal.str "Geocoding Disabled") ∧
    JVal.str "Geocoding Disabled" ≠ JVal.str "Berlin" := by
  refine ⟨by simp [dictGet], on_mqtt_message_accepts_berlin, ?_, by simp⟩
  unfold geocoding_disabled_enrich
  rw [dictGet_dictSet_ne _ _ _ _ (by decide), dictGet_dictSet_self]

/-- Witness instantiation of field pass-through at the key `lat`. -/
theorem C7_field_passthrough_witness :
    dictGet (geocoding_disabled_enrich (polar_enriched 0 0 (89/1000) 0
      [("lat", JVal.num (89/1000)), ("lon", JVal.num 0),
        ("area", JVal.str "Berlin")])) "lat" =
    dictGet [("lat", JVal.num (89/1000)), ("lon", JVal.num 0),
      ("area", JVal.str "Berlin")] "lat" :=
  C7_field_passthrough 0 0 10 "blitzortung/1.1/s"
    [("lat", JVal.num (89/1000)), ("lon", JVal.num 0), ("area", JVal.str "Berlin")]
    (geocoding_disabled_enrich (polar_enriched 0 0 (89/1000) 0
      [("lat", JVal.num (89/1000)), ("lon", JVal.num 0),
        ("area", JVal.str "Berlin")]))
    (89/1000) 0 "lat"
    (by simp [dictGet]) (by simp [dictGet]) on_mqtt_message_accepts_berlin
    (by decide) (by decide) (by decide) (by decide)

/-- Witness instantiation of the decode-failure behaviour on a concrete
strike topic. -/
theorem C5_decode_failure_witness :
    (on_mqtt_message 0 0 10 "blitzortung/1.1/s"
        (Except.error PyErr.jsonDecodeError) =
      Except.error PyErr.jsonDecodeError) ∧
    (dictGet [("lon", JVal.num 0)] "lat" = none →
      on_mqtt_message 0 0 10 "blitzortung/1.1/s"
          (Except.ok [("lon", JVal.num 0)]) =
        Except.error (PyErr.keyError "lat")) ∧
    (∀ x : ℝ, dictGet [("lon", JVal.num 0)] "lat" = some (JVal.num x) →
      dictGet [("lon", JVal.num 0)] "lon" = none →
      on_mqtt_message 0 0 10 "blitzortung/1.1/s"
          (Except.ok [("lon", JVal.num 0)]) =
        Except.error (PyErr.keyError "lon")) :=
  C5_decode_failure 0 0 10 "blitzortung/1.1/s" PyErr.jsonDecodeError
    [("lon", JVal.num 0)] (by decide)

/-! ### Jitter suppression (claim C6) -/

/-- Claim C6: a tracker update that moves the point by less than the 0.001
degree threshold on both axes leaves the coordinator — latitude, longitude,
coverage, held subscriptions and both call logs — exactly unchanged. -/
theorem C6_jitter_ignored (s : Coordinator) (b : Bool) (nlat nlon : ℚ)
    (hlat : |nlat - s.latitude| < 1/1000) (hlon : |nlon - s.longitude| < 1/1000) :
    device_tracker_state_changed s b (some (nlat, nlon)) = s := by
  unfold device_tracker_state_changed
  split
  · rfl
  · split
    · rfl
    · dsimp only
      rw [if_neg]
      push_neg
      exact ⟨le_of_lt hlat, le_of_lt hlon⟩

/-- Witness for C6: a 0.0005-degree movement is ignored. -/
theorem C6_jitter_ignored_witness :
    device_tracker_state_changed (init_coordinator 50 10 100 true) true
      (some (50 + 1/2000, 10)) = init_coordinator 50 10 100 true :=
  C6_jitter_ignored (init_coordinator 50 10 100 true) true (50 + 1/2000) 10
    (by simp only [init_coordinator]; rw [abs_sub_lt_iff]; norm_num)
    (by simp only [init_coordinator]; rw [abs_sub_lt_iff]; norm_num)

/-! ### Location change keeps stale subscriptions (claim C1) -/

/-- Claim C1 fails on the code (code bug): `_resubscribe_geohashes` never
unsubscribes, despite its own comment, so after a location change while
connected the held tile set is the union of old and new coverage and does
not equal the freshly recomputed coverage.  Run: connect at `(0, 0)` with
radius 2000 km (coverage `s,e,7,k`), then move to `(0, 90)` (coverage
`t,w,m,q`): all four stale tiles stay subscribed and zero unsubscribe calls
are issued. -/
theorem C1_stale_subscriptions_kept :
    (device_tracker_state_changed (connect_subscribe (init_coordinator 0 0 2000 true))
        true (some (0, 90))).geohashOverlap.toFinset =
      (["w", "t", "m", "q"] : List String).toFinset ∧
    (device_tracker_state_changed (connect_subscribe (init_coordinator 0 0 2000 true))
        true (some (0, 90))).heldSubs =
      (["s", "e", "7", "k", "w", "t", "m", "q"] : List String).toFinset ∧
    (device_tracker_state_changed (connect_subscribe (init_coordinator 0 0 2000 true))
        true (some (0, 90))).heldSubs ≠
      (device_tracker_state_changed (connect_subscribe (init_coordinator 0 0 2000 true))
        true (some (0, 90))).geohashOverlap.toFinset ∧
    (device_tracker_state_changed (connect_subscribe (init_coordinator 0 0 2000 true))
        true (some (0, 90))).unsubscribeCalls = [] ∧
    (device_tracker_state_changed (connect_subscribe (init_coordinator 0 0 2000 true))
        true (some (0, 90))).subscribeCalls =
      ["s", "e", "7", "k"] ++ ["w", "t", "m", "q"] := by
  have hA : geohash_overlap 0 0 2000 = ["s", "e", "7", "k"] := by
    rw [geohash_overlap_zero]
    decide
  have hB : geohash_overlap 0 90 2000 = ["w", "t", "m", "q"] := by
    rw [geohash_overlap_zero]
    decide
  have hrun : device_tracker_state_changed (connect_subscribe (init_coordinator 0 0 2000 true))
      true (some (0, 90)) =
      { latitude := 0, longitude := 90, radius := 2000,
        geohashOverlap := ["w", "t", "m", "q"], connected := true,
        locationAvailable := true, unloading := false, deviceTrackerMode := true,
        heldSubs := (∅ ∪ (["s", "e", "7", "k"] : List String).toFinset) ∪
          (["w", "t", "m", "q"] : List String).toFinset,
        subscribeCalls := ([] ++ ["s", "e", "7", "k"]) ++ ["w", "t", "m", "q"],
        unsubscribeCalls := [] } := by
    simp only [init_coordinator, connect_subscribe, hA]
    unfold device_tracker_state_changed
    rw [if_neg (by simp), if_neg (by simp)]
    dsimp only
    rw [if_pos (Or.inr (by decide))]
    unfold update_location
    dsimp only
    rw [hB, if_pos (by decide), if_pos rfl]
    unfold resubscribe_geohashes
    rfl
  rw [hrun]
  refine ⟨rfl, by decide, by decide, rfl, rfl⟩

/-! ### The tile coverage solver (claim C3) -/

theorem gh_bits_length (lat lon : ℚ) :
    ∀ (n : ℕ) (latlo lathi lonlo lonhi : ℚ) (e : Bool),
      (gh_bits lat lon n latlo lathi lonlo lonhi e).length = n := by
  intro n
  induction n with
  | zero =>
    intro latlo lathi lonlo lonhi e
    cases e <;> rfl
  | succ m ih =>
    intro latlo lathi lonlo lonhi e
    cases e <;> rw [gh_bits] <;> split <;> simp [ih]

theorem bitsOfChar_charOfBits5 (a b c d e : Bool) :
    bitsOfChar (charOfBits5 a b c d e) = [a, b, c, d, e] := by
  cases a <;> cases b <;> cases c <;> cases d <;> cases e <;> rfl

theorem charsOfBits_roundtrip :
    ∀ (k : ℕ) (bs : List Bool), bs.length = 5 * k →
      List.flatten ((charsOfBits bs).map bitsOfChar) = bs := by
  intro k
  induction k with
  | zero =>
    intro bs hbs
    rw [List.length_eq_zero.mp hbs]
    rfl
  | succ m ih =>
    intro bs hbs
    match bs with
    | [] => simp at hbs
    | [a] => simp at hbs; omega
    | [a, b] => simp at hbs; omega
    | [a, b, c] => simp at hbs; omega
    | [a, b, c, d] => simp at hbs; omega
    | a :: b :: c :: d :: e :: rest =>
      have hrest : rest.length = 5 * m := by
        simp at hbs
        omega
      rw [charsOfBits, List.map_cons, List.flatten_cons,
        bitsOfChar_charOfBits5, ih rest hrest]
      rfl

theorem geohash_bbox_encode (lat lon : ℚ) (p : ℕ) :
    geohash_bbox (encode lat lon p) =
      box_of_bits (gh_bits lat lon (5 * p) (-90) 90 (-180) 180 true)
        (-90) 90 (-180) 180 true := by
  unfold geohash_bbox encode
  rw [show (String.mk (charsOfBits (gh_bits lat lon (5 * p) (-90) 90 (-180) 180 true))).data
      = charsOfBits (gh_bits lat lon (5 * p) (-90) 90 (-180) 180 true) from rfl]
  rw [charsOfBits_roundtrip p _ (gh_bits_length lat lon _ _ _ _ _ _)]

theorem box_of_bits_mem (lat lon : ℚ) :
    ∀ (n : ℕ) (latlo lathi lonlo lonhi : ℚ) (e : Bool),
      latlo ≤ lat → lat ≤ lathi → lonlo ≤ lon → lon ≤ lonhi →
      (box_of_bits (gh_bits lat lon n latlo lathi lonlo lonhi e)
          latlo lathi lonlo lonhi e).s ≤ lat ∧
      lat ≤ (box_of_bits (gh_bits lat lon n latlo lathi lonlo lonhi e)
          latlo lathi lonlo lonhi e).n ∧
      (box_of_bits (gh_bits lat lon n latlo lathi lonlo lonhi e)
          latlo lathi lonlo lonhi e).w ≤ lon ∧
      lon ≤ (box_of_bits (gh_bits lat lon n latlo lathi lonlo lonhi e)
          latlo lathi lonlo lonhi e).e := by
  intro n
  induction n with
  | zero =>
    intro latlo lathi lonlo lonhi e h1 h2 h3 h4
    cases e <;> exact ⟨h1, h2, h3, h4⟩
  | succ m ih =>
    intro latlo lathi lonlo lonhi e h1 h2 h3 h4
    cases e
    · rw [gh_bits]
      by_cases hm : (latlo + lathi) / 2 ≤ lat
      · rw [if_pos hm, box_of_bits]
        exact ih _ _ _ _ _ hm h2 h3 h4
      · rw [if_neg hm, box_of_bits]
        exact ih _ _ _ _ _ h1 (le_of_lt (lt_of_not_le hm)) h3 h4
    · rw [gh_bits]
      by_cases hm : (lonlo + lonhi) / 2 ≤ lon
      · rw [if_pos hm, box_of_bits]
        exact ih _ _ _ _ _ h1 h2 hm h4
      · rw [if_neg hm, box_of_bits]
        exact ih _ _ _ _ _ h1 h2 h3 (le_of_lt (lt_of_not_le hm))

/-- The tile containing the center strictly overlaps the target box, for a
center strictly between the poles and a positive radius. -/
theorem center_tile_overlap (lat lon radius : ℚ) (p : ℕ)
    (h1 : -90 < lat) (h2 : lat < 90) (h3 : -180 ≤ lon) (h4 : lon ≤ 180)
    (hr : 0 < radius) :
    box_overlap (castBox (geohash_bbox (encode lat lon p))) (bbox lat lon radius) := by
  have hmem := box_of_bits_mem lat lon (5 * p) (-90) 90 (-180) 180 true
    (by linarith) (by linarith) h3 h4
  rw [geohash_bbox_encode]
  obtain ⟨hs, hn, hw, he⟩ := hmem
  have hsR : ((box_of_bits (gh_bits lat lon (5 * p) (-90) 90 (-180) 180 true)
      (-90) 90 (-180) 180 true).s : ℝ) ≤ (lat : ℝ) := by exact_mod_cast hs
  have hnR : (lat : ℝ) ≤ ((box_of_bits (gh_bits lat lon (5 * p) (-90) 90 (-180) 180 true)
      (-90) 90 (-180) 180 true).n : ℝ) := by exact_mod_cast hn
  have hwR : ((box_of_bits (gh_bits lat lon (5 * p) (-90) 90 (-180) 180 true)
      (-90) 90 (-180) 180 true).w : ℝ) ≤ (lon : ℝ) := by exact_mod_cast hw
  have heR : (lon : ℝ) ≤ ((box_of_bits (gh_bits lat lon (5 * p) (-90) 90 (-180) 180 true)
      (-90) 90 (-180) 180 true).e : ℝ) := by exact_mod_cast he
  have hΔ : (0 : ℝ) < ((radius * 360 / 40000 : ℚ) : ℝ) := by
    have : (0 : ℚ) < radius * 360 / 40000 := by positivity
    exact_mod_cast this
  have hcos : 0 < Real.cos ((lat : ℝ) * Real.pi / 180) := by
    have hl1 : ((-90 : ℝ)) < (lat : ℝ) := by exact_mod_cast h1
    have hl2 : (lat : ℝ) < 90 := by exact_mod_cast h2
    apply Real.cos_pos_of_mem_Ioo
    constructor
    · have : -(Real.pi / 2) = (-90) * Real.pi / 180 := by ring
      rw [this]
      have := Real.pi_pos
      nlinarith
    · have : Real.pi / 2 = 90 * Real.pi / 180 := by ring
      rw [this]
      have := Real.pi_pos
      nlinarith
  have hδ : 0 < ((radius * 360 / 40000 : ℚ) : ℝ) / Real.cos ((lat : ℝ) * Real.pi / 180) :=
    div_pos hΔ hcos
  unfold bbox box_overlap overlap castBox
  dsimp only
  refine ⟨⟨?_, ?_⟩, ?_, ?_⟩
  · linarith
  · exact lt_of_lt_of_le (by linarith) hnR
  · linarith
  · exact lt_of_lt_of_le (by linarith) heR

/-- Elements added to the `checked` accumulator by one worklist fold all
satisfy any property implied by the admission test. -/
theorem foldl_step_prop (P : String → Prop)
    (f : List String × List String → String → List String × List String)
    (hf : ∀ acc nb, (∀ t ∈ acc.2, P t) → ∀ t ∈ (f acc nb).2, P t) :
    ∀ (ns : List String) (acc : List String × List String),
      (∀ t ∈ acc.2, P t) → ∀ t ∈ (ns.foldl f acc).2, P t := by
  intro ns
  induction ns with
  | nil => intro acc h; exact h
  | cons nb rest ih =>
    intro acc h
    rw [List.foldl_cons]
    exact ih _ (hf acc nb h)

theorem foldl_step_sub
    (f : List String × List String → String → List String × List String)
    (hf : ∀ acc nb, acc.2 ⊆ (f acc nb).2) :
    ∀ (ns : List String) (acc : List String × List String),
      acc.2 ⊆ (ns.foldl f acc).2 := by
  intro ns
  induction ns with
  | nil => intro acc; exact fun t ht => ht
  | cons nb rest ih =>
    intro acc
    rw [List.foldl_cons]
    exact fun t ht => ih (f acc nb) (hf acc nb ht)

/-- Everything the flood fill returns was initially checked or passed the
admission test. -/
theorem flood_fill_prop (keep : String → Bool) (P : String → Prop)
    (hk : ∀ t, keep t = true → P t) :
    ∀ (fuel : ℕ) (stack checked : List String),
      (∀ t ∈ checked, P t) → ∀ t ∈ flood_fill keep fuel stack checked, P t := by
  intro fuel
  induction fuel with
  | zero => intro stack checked h; exact h
  | succ m ih =>
    intro stack checked h
    match stack with
    | [] => exact h
    | cur :: rest =>
      rw [flood_fill]
      apply ih
      apply foldl_step_prop P _ ?hf _ _ h
      intro acc nb hacc t ht
      by_cases hmem : nb ∈ acc.2
      · rw [if_pos hmem] at ht
        exact hacc t ht
      · rw [if_neg hmem] at ht
        by_cases hkeep : keep nb = true
        · rw [if_pos hkeep] at ht
          rcases List.mem_append.mp ht with hl | hr
          · exact hacc t hl
          · rw [List.mem_singleton.mp hr]
            exact hk nb hkeep
        · rw [if_neg hkeep] at ht
          exact hacc t ht

/-- The flood fill only grows the checked set. -/
theorem flood_fill_sub (keep : String → Bool) :
    ∀ (fuel : ℕ) (stack checked : List String),
      checked ⊆ flood_fill keep fuel stack checked := by
  intro fuel
  induction fuel with
  | zero => intro stack checked; exact fun t ht => ht
  | succ m ih =>
    intro stack checked
    match stack with
    | [] => exact fun t ht => ht
    | cur :: rest =>
      rw [flood_fill]
      intro t ht
      apply ih
      apply foldl_step_sub _ ?hf _ _ ht
      intro acc nb t' ht'
      by_cases hmem : nb ∈ acc.2
      · rw [if_pos hmem]
        exact ht'
      · rw [if_neg hmem]
        by_cases hkeep : keep nb = true
        · rw [if_pos hkeep]
          exact List.mem_append.mpr (Or.inl ht')
        · rw [if_neg hkeep]
          exact ht'

theorem center_mem_compute_geohash_tiles (lat lon radius : ℚ) (p : ℕ) :
    encode lat lon p ∈ compute_geohash_tiles lat lon radius p := by
  unfold compute_geohash_tiles
  exact flood_fill_sub _ _ _ _ (List.mem_singleton.mpr rfl)

theorem compute_geohash_tiles_ne_nil (lat lon radius : ℚ) (p : ℕ) :
    compute_geohash_tiles lat lon radius p ≠ [] := by
  intro h
  have hmem := center_mem_compute_geohash_tiles lat lon radius p
  rw [h] at hmem
  exact absurd hmem (List.not_mem_nil _)

theorem compute_geohash_tiles_overlap (lat lon radius : ℚ) (p : ℕ)
    (h1 : -90 < lat) (h2 : lat < 90) (h3 : -180 ≤ lon) (h4 : lon ≤ 180)
    (hr : 0 < radius) :
    ∀ t ∈ compute_geohash_tiles lat lon radius p,
      box_overlap (castBox (geohash_bbox t)) (bbox lat lon radius) := by
  have hk : ∀ t, tile_keep lat lon radius t = true →
      box_overlap (castBox (geohash_bbox t)) (bbox lat lon radius) :=
    fun t ht => of_decide_eq_true ht
  have hinit : ∀ t ∈ [encode lat lon p],
      box_overlap (castBox (geohash_bbox t)) (bbox lat lon radius) := by
    intro t ht
    rw [List.mem_singleton.mp ht]
    exact center_tile_overlap lat lon radius p h1 h2 h3 h4 hr
  intro t ht
  exact flood_fill_prop _ _ hk (32 ^ p) [encode lat lon p] [encode lat lon p]
    hinit t ht

theorem overlap_loop_succ (lat lon radius : ℚ) (fuel p : ℕ) (res : List String) :
    geohash_overlap_loop lat lon radius (fuel + 1) p res =
      if 13 ≤ p then res
      else if (compute_geohash_tiles lat lon radius p).length ≤ 9 then
        geohash_overlap_loop lat lon radius fuel (p + 1)
          (compute_geohash_tiles lat lon radius p)
      else res := rfl

theorem overlap_loop_le9 (lat lon radius : ℚ) :
    ∀ (fuel p : ℕ) (res : List String), res.length ≤ 9 →
      (geohash_overlap_loop lat lon radius fuel p res).length ≤ 9 := by
  intro fuel
  induction fuel with
  | zero => intro p res h; exact h
  | succ m ih =>
    intro p res h
    rw [overlap_loop_succ]
    by_cases hp : 13 ≤ p
    · rw [if_pos hp]; exact h
    · rw [if_neg hp]
      by_cases hc : (compute_geohash_tiles lat lon radius p).length ≤ 9
      · rw [if_pos hc]
        exact ih _ _ hc
      · rw [if_neg hc]; exact h

theorem overlap_loop_prop (lat lon radius : ℚ) (Q : String → Prop)
    (hQ : ∀ p, ∀ t ∈ compute_geohash_tiles lat lon radius p, Q t) :
    ∀ (fuel p : ℕ) (res : List String), (∀ t ∈ res, Q t) →
      ∀ t ∈ geohash_overlap_loop lat lon radius fuel p res, Q t := by
  intro fuel
  induction fuel with
  | zero => intro p res h; exact h
  | succ m ih =>
    intro p res h
    rw [overlap_loop_succ]
    by_cases hp : 13 ≤ p
    · rw [if_pos hp]; exact h
    · rw [if_neg hp]
      by_cases hc : (compute_geohash_tiles lat lon radius p).length ≤ 9
      · rw [if_pos hc]
        exact ih _ _ (hQ p)
      · rw [if_neg hc]; exact h

theorem overlap_loop_ne_nil (lat lon radius : ℚ) :
    ∀ (fuel p : ℕ) (res : List String), res ≠ [] →
      geohash_overlap_loop lat lon radius fuel p res ≠ [] := by
  intro fuel
  induction fuel with
  | zero => intro p res h; exact h
  | succ m ih =>
    intro p res h
    rw [overlap_loop_succ]
    by_cases hp : 13 ≤ p
    · rw [if_pos hp]; exact h
    · rw [if_neg hp]
      by_cases hc : (compute_geohash_tiles lat lon radius p).length ≤ 9
      · rw [if_pos hc]
        exact ih _ _ (compute_geohash_tiles_ne_nil lat lon radius p)
      · rw [if_neg hc]; exact h

/-- Claim C3 (amended): for a center strictly between the pole rows, a
longitude in range and a positive radius, `geohash_overlap` returns at most
9 tiles, every returned tile's box strictly overlaps the target circle's
bounding box, and the result is non-empty whenever the precision-1 coverage
already fits the budget of 9 (for very large radii it does not, and the
empty set is returned — see the counterexample). -/
theorem C3_coverage_bounds (lat lon radius : ℚ) (h1 : -90 < lat) (h2 : lat < 90)
    (h3 : -180 ≤ lon) (h4 : lon ≤ 180) (hr : 0 < radius) :
    (geohash_overlap lat lon radius).length ≤ 9 ∧
    (∀ t ∈ geohash_overlap lat lon radius,
      box_overlap (castBox (geohash_bbox t)) (bbox lat lon radius)) ∧
    ((compute_geohash_tiles lat lon radius 1).length ≤ 9 →
      geohash_overlap lat lon radius ≠ []) := by
  refine ⟨overlap_loop_le9 lat lon radius 13 1 [] (by simp), ?_, ?_⟩
  · exact overlap_loop_prop lat lon radius _
      (fun p => compute_geohash_tiles_overlap lat lon radius p h1 h2 h3 h4 hr)
      13 1 [] (by simp)
  · intro hbudget
    unfold geohash_overlap
    rw [show (13 : ℕ) = 12 + 1 from rfl, overlap_loop_succ,
      if_neg (by norm_num), if_pos hbudget]
    exact overlap_loop_ne_nil lat lon radius 12 2 _
      (compute_geohash_tiles_ne_nil lat lon radius 1)

/-- Witness instantiation of the coverage bounds at `(0, 0)` with radius
2000 km. -/
theorem C3_coverage_bounds_witness :
    (geohash_overlap 0 0 2000).length ≤ 9 ∧
    (∀ t ∈ geohash_overlap 0 0 2000,
      box_overlap (castBox (geohash_bbox t)) (bbox 0 0 2000)) ∧
    ((compute_geohash_tiles 0 0 2000 1).length ≤ 9 →
      geohash_overlap 0 0 2000 ≠ []) :=
  C3_coverage_bounds 0 0 2000 (by norm_num) (by norm_num) (by norm_num)
    (by norm_num) (by norm_num)

/-- Counterexample to claim C3 as stated: at the valid center `(0, 0)` with
radius 20000 km the precision-1 flood fill already exceeds the budget, so
`geohash_overlap` returns the empty set — the claimed non-emptiness fails. -/
theorem C3_counterexample :
    geohash_overlap 0 0 20000 = [] ∧
    (-90 : ℚ) ≤ 0 ∧ (0 : ℚ) ≤ 90 ∧ (-180 : ℚ) ≤ 0 ∧ (0 : ℚ) ≤ 180 ∧
    (0 : ℚ) < 20000 := by
  refine ⟨?_, by norm_num, by norm_num, by norm_num, by norm_num, by norm_num⟩
  rw [geohash_overlap_zero]
  decide

end Blitzortung
